import Mathlib

/-!
Shallow embedding of `scripts/readme.py`, the EmbedKit README generator.

Effects are modelled by explicit outcome parameters: every interaction with
the operating system (the git subprocess, per-file reads, the network call,
the final write) is an input describing what the environment does, and the
script's functions are pure functions of those inputs.  Exceptions are
modelled by outcome constructors; an exception the Python code does not
catch surfaces in the `uncaught` field of the run result.

File contents are modelled as the text they decode to (UTF-8 en/decoding is
an injective round trip, so this is byte-faithful for decodable files); a
file whose bytes do not decode is modelled by the corresponding failure
outcome.  The script opens every file in text mode with the default
`newline=None`, so reading applies universal-newline translation (`\r\n`
and a lone `\r` become `\n`) and writing maps `\n` to `os.linesep`, which
is `\n` (the identity) on the POSIX platforms the script targets.
-/

namespace Readme

/-- The fixed instruction text, `SYSTEM_PROMPT` in the source. -/
def SYSTEM_PROMPT : String :=
  "You are a helpful developer relations assistant that reads the entire code base and rewrites the README.md file to provide clear instructions, describe the package, list dependencies, and usage examples. Please analyze the code and produce an updated README that maintains a professional developer relations tone, does not use emojis, and includes all necessary information for users to understand and use the package. Output README.md ready for deployment to GitHub. DO NOT WRAP entire output in ```markdown``` tags it\x27s not necessary."

/-- The model identifier, `AI_MODEL` in the source. -/
def AI_MODEL : String := "gemini-2.0-flash-thinking-exp-01-21"

/-- Outcome of `open(file_path, "r", encoding="utf-8")` followed by `.read()`
on one path: a successful decode, a `UnicodeDecodeError`, or any other
exception (carrying its message). -/
inductive ReadOutcome where
  | ok (content : String)
  | unicodeDecodeError
  | otherError (msg : String)
deriving DecidableEq, Repr

/-- `read_file_content`: returns the pair of the path and either the file's
text, the fixed placeholder `"[Binary file]"` on a decode failure, or an
error-embedding placeholder on any other exception.  Both handlers return
normally, so no exception escapes to the caller. -/
def read_file_content (file_path : String) (outcome : ReadOutcome) : String × String :=
  match outcome with
  | .ok content => (file_path, content)
  | .unicodeDecodeError => (file_path, "[Binary file]")
  | .otherError e => (file_path, "[Error reading file: " ++ e ++ "]")

/-- Outcome of `subprocess.check_output(["git", "ls-files"], ...)`:
the decoded, line-split list of tracked paths; a `CalledProcessError`
(non-zero exit status); or an invocation failure such as
`FileNotFoundError` when the git executable cannot be run at all. -/
inductive GitOutcome where
  | ok (files : List String)
  | calledProcessError (msg : String)
  | invocationError (msg : String)
deriving DecidableEq, Repr

/-- Lexicographic comparison of two character sequences by code point,
which is exactly how Python compares the string sort keys. -/
def lexLe : List Char → List Char → Bool
  | [], _ => true
  | _ :: _, [] => false
  | a :: as, b :: bs =>
    if a.toNat < b.toNat then true
    else if b.toNat < a.toNat then false
    else lexLe as bs

/-- The sort key relation of `results.sort(key=lambda x: x[0])`: compare
pairs by their first component (the path) only. -/
def pathLe (x y : String × String) : Prop := lexLe x.1.data y.1.data = true

instance : DecidableRel pathLe :=
  fun x y => inferInstanceAs (Decidable (lexLe x.1.data y.1.data = true))

/-- The in-place sort `results.sort(key=lambda x: x[0])`.  Python's
`list.sort` is a stable sort by the given key; it is modelled by the
canonical stable sort (insertion sort), which computes the same list as
any stable sort with the same key relation. -/
def sortByPath (results : List (String × String)) : List (String × String) :=
  results.insertionSort pathLe

/-- One iteration of the summary loop:
`summary += f"--- \x7bfile_path\x7d ---\n\x7bcontent\x7d\n\n"`. -/
def fileSection (r : String × String) : String :=
  "--- " ++ r.1 ++ " ---\n" ++ r.2 ++ "\n\n"

/-- Left-to-right concatenation of the per-file sections, mirroring the
accumulating `summary` string. -/
def concatSections : List String → String
  | [] => ""
  | s :: rest => s ++ concatSections rest

/-- The summary built from an arbitrary list of (path, content) results:
sort by path, then concatenate the sections. -/
def summaryOfResults (results : List (String × String)) : String :=
  concatSections ((sortByPath results).map fileSection)

/-- The result list produced by `executor.map(read_file_content, files)`,
with each path's read outcome supplied by the oracle `read`. -/
def readResults (files : List String) (read : String → ReadOutcome) :
    List (String × String) :=
  files.map (fun p => read_file_content p (read p))

/-- `get_codebase_summary`: on a git success, read all tracked files in
parallel, sort the results by path and concatenate the sections; a
`CalledProcessError` is caught and the fixed string
`"Error: Failed to list git files"` is returned as the summary; any other
exception from the subprocess call is not caught and propagates
(`Except.error`). -/
def get_codebase_summary (git : GitOutcome) (read : String → ReadOutcome) :
    Except String String :=
  match git with
  | .ok files => .ok (summaryOfResults (readResults files read))
  | .calledProcessError _ => .ok "Error: Failed to list git files"
  | .invocationError msg => .error msg

/-- Outcome of the remote generation call once it is attempted: a normal
return carrying `response.text` (which the SDK may leave absent), or any
exception raised by client construction or the call itself. -/
inductive GenOutcome where
  | success (text : Option String)
  | raised (msg : String)
deriving DecidableEq, Repr

/-- `call_geminiai`: if `GEMINI_API_KEY` is absent, return `None` before
any client is built, so no network call is attempted (second component
`false`); otherwise the call is attempted and either its text is returned
or the exception is caught and `None` is returned. -/
def call_geminiai (_prompt : String) (api_key : Option String) (gen : GenOutcome) :
    Option String × Bool :=
  match api_key with
  | none => (none, false)
  | some _ =>
    match gen with
    | .success t => (t, true)
    | .raised _ => (none, true)

/-- Which step of the backup copy raises, if any.  The source runs, in
order: open `README.md` for reading, open `README.md.bak` for writing
(truncating it), `src.read()`, `dst.write(...)`.  A failure at `readSrc`
(for example a `UnicodeDecodeError` on a non-UTF-8 `README.md`) or at
`writeDst` therefore happens after the destination was truncated; the
model records the truncated (empty) destination in those cases, which is
the least that the filesystem is left with. -/
inductive BackupFailure where
  | openSrc
  | openDst
  | readSrc
  | writeDst
deriving DecidableEq, Repr

/-- The files the script touches: `README.md` and `README.md.bak`,
each either absent or present with the given bytes (represented as the
text they decode to). -/
structure FsState where
  readme : Option String
  bak : Option String
deriving DecidableEq, Repr

/-- Universal-newline translation performed by a text-mode read:
`\r\n` and a lone `\r` both become `\n`. -/
def translateNewlines : List Char → List Char
  | [] => []
  | [c] => [if c = '\r' then '\n' else c]
  | c1 :: c2 :: rest =>
    if c1 = '\r' then
      if c2 = '\n' then '\n' :: translateNewlines rest
      else '\n' :: translateNewlines (c2 :: rest)
    else c1 :: translateNewlines (c2 :: rest)

/-- The text returned by a successful text-mode read of a file whose
bytes are `raw`. -/
def readText (raw : String) : String := String.mk (translateNewlines raw.data)

/-- `backup_existing_readme`: if `README.md` does not exist, return `True`
at once; otherwise copy it to `README.md.bak` in text mode and return
`True`, or catch the exception and return `False`.  On POSIX the write
side maps `\n` to itself, so the bytes written are `readText raw`. -/
def backup_existing_readme (st : FsState) (failure : Option BackupFailure) :
    Bool × FsState :=
  match st.readme with
  | none => (true, st)
  | some raw =>
    match failure with
    | some .openSrc => (false, st)
    | some .openDst => (false, st)
    | some .readSrc => (false, ⟨st.readme, some ""⟩)
    | some .writeDst => (false, ⟨st.readme, some ""⟩)
    | none => (true, ⟨st.readme, some (readText raw)⟩)

/-- Python truthiness of an `Optional[str]`: `None` and the empty string
are falsy, every other string is truthy. -/
def isTruthy : Option String → Bool
  | none => false
  | some s => !(s == "")

/-- The prompt assembly in `main`:
`f"\x7bSYSTEM_PROMPT\x7d\n\nCodebase files:\n\x7bcodebase_context\x7d"`. -/
def assemblePrompt (codebase_context : String) : String :=
  SYSTEM_PROMPT ++ "\n\nCodebase files:\n" ++ codebase_context

/-- The content component the Content Reader produces for path `p`,
so that every element of `readResults` is determined by its path. -/
def contentOf (read : String → ReadOutcome) (p : String) : String :=
  (read_file_content p (read p)).2

/-- Companion relation of `pathLe` that is antisymmetric outright: either
the path order is strict, or the two results are one and the same.  A list
of read results sorted by `pathLe` is also sorted for this relation,
because results with equal paths are equal. -/
def pathR (x y : String × String) : Prop := ¬ pathLe y x ∨ x = y

/-- The failure modes of the remote generation step: an exception, an
absent result, or an empty result (all falsy in `if updated_readme:`). -/
def genFailed : GenOutcome → Bool
  | .raised _ => true
  | .success none => true
  | .success (some t) => t == ""

/-- Everything the environment decides for one run. -/
structure Env where
  fs0 : FsState
  backupFailure : Option BackupFailure
  git : GitOutcome
  read : String → ReadOutcome
  api_key : Option String
  gen : GenOutcome
  finalWriteFails : Bool

/-- Observable result of one run: the final filesystem state, whether the
remote generation call was attempted, whether the final write step was
entered, and the message of an exception that escaped `main`, if any. -/
structure RunResult where
  fs : FsState
  networkCalled : Bool
  writeInvoked : Bool
  uncaught : Option String
deriving Repr

/-- `main`: backup, then gather the codebase summary, then call the model,
then (only on a truthy result) overwrite `README.md`.  A failed final
write leaves `README.md` truncated (text-mode `open(..., "w")` truncates
before the write). -/
def main (env : Env) : RunResult :=
  let b := backup_existing_readme env.fs0 env.backupFailure
  if b.1 = false then
    ⟨b.2, false, false, none⟩
  else
    match get_codebase_summary env.git env.read with
    | .error msg => ⟨b.2, false, false, some msg⟩
    | .ok codebase_context =>
      let full_prompt := assemblePrompt codebase_context
      match call_geminiai full_prompt env.api_key env.gen with
      | (some s, called) =>
        if s == "" then
          ⟨b.2, called, false, none⟩
        else if env.finalWriteFails then
          ⟨⟨some "", b.2.bak⟩, called, true, none⟩
        else
          ⟨⟨some s, b.2.bak⟩, called, true, none⟩
      | (none, called) => ⟨b.2, called, false, none⟩

/-! ### Helper lemmas about the code-point order -/

theorem char_toNat_inj {a b : Char} (h : a.toNat = b.toNat) : a = b := by
  apply Char.eq_of_val_eq
  apply UInt32.toNat.inj
  exact h

theorem string_data_inj {s t : String} (h : s.data = t.data) : s = t := by
  cases s
  cases t
  simp_all

theorem lexLe_total : ∀ a b : List Char, lexLe a b = true ∨ lexLe b a = true
  | [], _ => Or.inl rfl
  | _ :: _, [] => Or.inr rfl
  | x :: xs, y :: ys => by
    rcases Nat.lt_trichotomy x.toNat y.toNat with h | h | h
    · left
      simp [lexLe, h]
    · have h1 : ¬ x.toNat < y.toNat := by omega
      have h2 : ¬ y.toNat < x.toNat := by omega
      rcases lexLe_total xs ys with ih | ih
      · left
        simp [lexLe, h1, h2, ih]
      · right
        simp [lexLe, h1, h2, ih]
    · right
      simp [lexLe, h]

theorem lexLe_trans : ∀ a b c : List Char,
    lexLe a b = true → lexLe b c = true → lexLe a c = true
  | [], _, _, _, _ => rfl
  | _ :: _, [], _, h, _ => by simp [lexLe] at h
  | _ :: _, _ :: _, [], _, h => by simp [lexLe] at h
  | x :: xs, y :: ys, z :: zs, h₁, h₂ => by
    simp only [lexLe] at h₁ h₂ ⊢
    by_cases hyx : y.toNat < x.toNat
    · simp [show ¬ x.toNat < y.toNat by omega, hyx] at h₁
    · by_cases hzy : z.toNat < y.toNat
      · simp [show ¬ y.toNat < z.toNat by omega, hzy] at h₂
      · by_cases hxy : x.toNat < y.toNat
        · simp [show x.toNat < z.toNat by omega]
        · by_cases hyz : y.toNat < z.toNat
          · simp [show x.toNat < z.toNat by omega]
          · simp [hxy, hyx] at h₁
            simp [hyz, hzy] at h₂
            simp [show ¬ x.toNat < z.toNat by omega, show ¬ z.toNat < x.toNat by omega]
            exact lexLe_trans xs ys zs h₁ h₂

theorem lexLe_antisymm : ∀ a b : List Char,
    lexLe a b = true → lexLe b a = true → a = b
  | [], [], _, _ => rfl
  | [], _ :: _, _, h => by simp [lexLe] at h
  | _ :: _, [], h, _ => by simp [lexLe] at h
  | x :: xs, y :: ys, h₁, h₂ => by
    simp only [lexLe] at h₁ h₂
    by_cases hxy : x.toNat < y.toNat
    · simp [show ¬ y.toNat < x.toNat by omega, hxy] at h₂
    · by_cases hyx : y.toNat < x.toNat
      · simp [hxy, hyx] at h₁
      · simp [hxy, hyx] at h₁
        simp [hxy, hyx] at h₂
        have hc : x = y := char_toNat_inj (by omega)
        rw [hc, lexLe_antisymm xs ys h₁ h₂]

theorem pathLe_total (x y : String × String) : pathLe x y ∨ pathLe y x :=
  lexLe_total x.1.data y.1.data

theorem pathLe_trans {x y z : String × String} (h₁ : pathLe x y) (h₂ : pathLe y z) :
    pathLe x z :=
  lexLe_trans x.1.data y.1.data z.1.data h₁ h₂

theorem pathLe_fst_eq {x y : String × String} (h₁ : pathLe x y) (h₂ : pathLe y x) :
    x.1 = y.1 :=
  string_data_inj (lexLe_antisymm x.1.data y.1.data h₁ h₂)

theorem pathR_antisymm {x y : String × String} (h₁ : pathR x y) (h₂ : pathR y x) :
    x = y := by
  rcases h₁ with h₁ | h₁
  · rcases h₂ with h₂ | h₂
    · rcases pathLe_total x y with h | h
      · exact absurd h h₂
      · exact absurd h h₁
    · exact h₂.symm
  · exact h₁

/-! ### Helper lemmas about the summary assembly -/

theorem read_fst (p : String) (o : ReadOutcome) : (read_file_content p o).1 = p := by
  cases o <;> rfl

theorem mem_readResults_form {files : List String} {read : String → ReadOutcome}
    {x : String × String} (hx : x ∈ readResults files read) :
    x = (x.1, contentOf read x.1) := by
  simp only [readResults, List.mem_map] at hx
  obtain ⟨p, -, rfl⟩ := hx
  rcases h : read p with c | _ | m <;> simp [read_file_content, contentOf, h]

theorem pairwise_pathR_of_form {c : String → String} {l : List (String × String)}
    (hform : ∀ x ∈ l, x = (x.1, c x.1))
    (h : l.Pairwise pathLe) : l.Pairwise pathR := by
  refine h.imp_of_mem ?_
  intro x y hx hy hle
  by_cases hge : pathLe y x
  · right
    have h1 : x.1 = y.1 := pathLe_fst_eq hle hge
    rw [hform x hx, hform y hy, h1]
  · exact Or.inl hge

theorem sortByPath_perm_invariant (files : List String) (read : String → ReadOutcome)
    (results : List (String × String))
    (hperm : results.Perm (readResults files read)) :
    sortByPath results = sortByPath (readResults files read) := by
  haveI : IsTotal (String × String) pathLe := ⟨pathLe_total⟩
  haveI : IsTrans (String × String) pathLe := ⟨fun _ _ _ => pathLe_trans⟩
  haveI : IsAntisymm (String × String) pathR := ⟨fun _ _ => pathR_antisymm⟩
  have hmem₁ : ∀ x ∈ sortByPath results, x = (x.1, contentOf read x.1) := by
    intro x hx
    exact mem_readResults_form
      (hperm.mem_iff.mp ((List.mem_insertionSort pathLe).mp hx))
  have hmem₂ : ∀ x ∈ sortByPath (readResults files read),
      x = (x.1, contentOf read x.1) := by
    intro x hx
    exact mem_readResults_form ((List.mem_insertionSort pathLe).mp hx)
  have hp : (sortByPath results).Perm (sortByPath (readResults files read)) :=
    ((List.perm_insertionSort pathLe results).trans hperm).trans
      (List.perm_insertionSort pathLe (readResults files read)).symm
  exact List.eq_of_perm_of_sorted hp
    (pairwise_pathR_of_form hmem₁ (List.sorted_insertionSort pathLe results))
    (pairwise_pathR_of_form hmem₂
      (List.sorted_insertionSort pathLe (readResults files read)))

theorem concatSections_of_mem {s : String} : ∀ {l : List String}, s ∈ l →
    ∃ t u, concatSections l = t ++ s ++ u := by
  intro l h
  induction l with
  | nil => cases h
  | cons a rest ih =>
    rcases List.mem_cons.mp h with rfl | h2
    · refine ⟨"", concatSections rest, ?_⟩
      simp [concatSections]
    · obtain ⟨t, u, ht⟩ := ih h2
      refine ⟨a ++ t, u, ?_⟩
      simp [concatSections, ht, String.append_assoc]

/-! ### Helper lemmas about backup and the orchestrator -/

theorem backup_readme_frame (st : FsState) (f : Option BackupFailure) :
    (backup_existing_readme st f).2.readme = st.readme := by
  rcases st with ⟨r, b⟩
  rcases r with _ | raw
  · rfl
  · rcases f with _ | f
    · rfl
    · cases f <;> rfl

theorem backup_none_succeeds (st : FsState) :
    (backup_existing_readme st none).1 = true := by
  rcases st with ⟨r, b⟩
  rcases r with _ | raw <;> rfl

theorem translateNewlines_of_no_cr : ∀ l : List Char, '\r' ∉ l → translateNewlines l = l
  | [], _ => rfl
  | [c], h => by
    have h1 : ¬ c = '\r' := fun e => h (by simp [e])
    simp [translateNewlines, h1]
  | c1 :: c2 :: rest, h => by
    have h1 : ¬ c1 = '\r' := fun e => h (by simp [e])
    have h2 : '\r' ∉ c2 :: rest := fun e => h (List.mem_cons_of_mem c1 e)
    simp only [translateNewlines, h1, if_false]
    rw [translateNewlines_of_no_cr (c2 :: rest) h2]

/-! ### The claims -/

/-- Claim C9: the Content Reader is total — for every path and every
outcome of the underlying read, `read_file_content` returns normally with
a pair whose first component is exactly the input path, whether the read
succeeded, hit a decode failure, or hit any other I/O error. -/
theorem C9_reader_total_path_preserved (p : String) (o : ReadOutcome) :
    (read_file_content p o).1 = p ∧ ∃ c, read_file_content p o = (p, c) := by
  cases o <;> exact ⟨rfl, _, rfl⟩

/-- Claim C10: when `README.md` does not exist at the start of a run, the
backup step returns `True` and leaves the filesystem — including any
pre-existing `README.md.bak` — completely unchanged, whatever failure the
copy would otherwise have hit. -/
theorem C10_backup_noop_without_readme (st : FsState)
    (failure : Option BackupFailure) (h : st.readme = none) :
    backup_existing_readme st failure = (true, st) := by
  rcases st with ⟨r, b⟩
  subst h
  rfl

/-- Witness for C10 at a state with a pre-existing backup file. -/
theorem C10_backup_noop_without_readme_witness :
    (FsState.mk none (some "old backup")).readme = none ∧
    backup_existing_readme ⟨none, some "old backup"⟩ (some .writeDst) =
      (true, ⟨none, some "old backup"⟩) :=
  ⟨rfl, C10_backup_noop_without_readme ⟨none, some "old backup"⟩ (some .writeDst) rfl⟩

/-- Claim C4: a tracked file whose bytes fail to decode gets the fixed
placeholder `"[Binary file]"` as its content instead of an error, the
summary is still produced normally, and the file appears in the
assembled prompt as a section whose body is the placeholder. -/
theorem C4_decode_failure_is_placeholder (files : List String)
    (read : String → ReadOutcome) (p : String)
    (hp : p ∈ files) (hr : read p = .unicodeDecodeError) :
    read_file_content p (read p) = (p, "[Binary file]") ∧
    get_codebase_summary (.ok files) read =
      .ok (summaryOfResults (readResults files read)) ∧
    ∃ t u, assemblePrompt (summaryOfResults (readResults files read)) =
      t ++ ("--- " ++ p ++ " ---\n[Binary file]\n\n") ++ u := by
  refine ⟨by rw [hr]; rfl, rfl, ?_⟩
  have hmem : fileSection (p, "[Binary file]") ∈
      (sortByPath (readResults files read)).map fileSection := by
    refine List.mem_map.mpr ⟨(p, "[Binary file]"), ?_, rfl⟩
    refine (List.mem_insertionSort pathLe).mpr ?_
    refine List.mem_map.mpr ⟨p, hp, ?_⟩
    rw [hr]
    rfl
  obtain ⟨t, u, ht⟩ := concatSections_of_mem hmem
  refine ⟨SYSTEM_PROMPT ++ "\n\nCodebase files:\n" ++ t, u, ?_⟩
  have hfs : fileSection (p, "[Binary file]") =
      "--- " ++ p ++ " ---\n[Binary file]\n\n" := by
    simp only [fileSection, String.append_assoc]
    rfl
  simp only [assemblePrompt, summaryOfResults, ht, hfs, String.append_assoc]

/-- Witness for C4: two tracked files, of which `b.bin` is binary. -/
theorem C4_decode_failure_is_placeholder_witness :
    ("b.bin" ∈ ["a.txt", "b.bin"] ∧
      (fun p => if p = "a.txt" then ReadOutcome.ok "hello"
        else ReadOutcome.unicodeDecodeError) "b.bin" = .unicodeDecodeError) ∧
    (read_file_content "b.bin"
        ((fun p => if p = "a.txt" then ReadOutcome.ok "hello"
          else ReadOutcome.unicodeDecodeError) "b.bin") = ("b.bin", "[Binary file]") ∧
      get_codebase_summary (.ok ["a.txt", "b.bin"])
        (fun p => if p = "a.txt" then ReadOutcome.ok "hello"
          else ReadOutcome.unicodeDecodeError) =
        .ok (summaryOfResults (readResults ["a.txt", "b.bin"]
          (fun p => if p = "a.txt" then ReadOutcome.ok "hello"
            else ReadOutcome.unicodeDecodeError))) ∧
      ∃ t u, assemblePrompt (summaryOfResults (readResults ["a.txt", "b.bin"]
          (fun p => if p = "a.txt" then ReadOutcome.ok "hello"
            else ReadOutcome.unicodeDecodeError))) =
        t ++ ("--- " ++ "b.bin" ++ " ---\n[Binary file]\n\n") ++ u) :=
  ⟨⟨by decide, rfl⟩,
    C4_decode_failure_is_placeholder ["a.txt", "b.bin"]
      (fun p => if p = "a.txt" then ReadOutcome.ok "hello"
        else ReadOutcome.unicodeDecodeError) "b.bin" (by decide) rfl⟩

/-- Claim C8: the assembled prompt is the fixed instruction text, the
separator, then one `--- <path> ---`-delimited section per (path,
content) pair, each followed by its content and a blank line; in the
concrete scenario with `a.txt` holding `hello` and binary `b.bin`, the
prompt lists the `a.txt` section (body `hello`) before the `b.bin`
section (body the placeholder), in lexicographic path order. -/
theorem C8_prompt_layout :
    (∀ ctx : String, assemblePrompt ctx =
      SYSTEM_PROMPT ++ "\n\nCodebase files:\n" ++ ctx) ∧
    (∀ x : String × String, fileSection x =
      "--- " ++ x.1 ++ " ---\n" ++ x.2 ++ "\n\n") ∧
    get_codebase_summary (.ok ["b.bin", "a.txt"])
      (fun p => if p = "a.txt" then .ok "hello" else .unicodeDecodeError) =
      .ok ("--- a.txt ---\nhello\n\n" ++ "--- b.bin ---\n[Binary file]\n\n") ∧
    assemblePrompt ("--- a.txt ---\nhello\n\n" ++ "--- b.bin ---\n[Binary file]\n\n") =
      SYSTEM_PROMPT ++
        "\n\nCodebase files:\n--- a.txt ---\nhello\n\n--- b.bin ---\n[Binary file]\n\n" := by
  set_option maxRecDepth 8192 in
  refine ⟨fun _ => rfl, fun _ => rfl, ?_, ?_⟩ <;> rfl

/-- Claim C2: the assembled prompt is a deterministic function of the
tracked paths and contents alone — whatever order the parallel reads
deliver the (path, content) pairs in, the path-sorted summary and hence
the prompt are byte-identical to the ones built from the canonical read
order, and the sections end up ordered by the lexicographic path
relation. -/
theorem C2_prompt_deterministic (files : List String) (read : String → ReadOutcome)
    (results : List (String × String))
    (hperm : results.Perm (readResults files read)) :
    assemblePrompt (summaryOfResults results) =
      assemblePrompt (summaryOfResults (readResults files read)) ∧
    (sortByPath results).Sorted pathLe := by
  constructor
  · unfold summaryOfResults
    rw [sortByPath_perm_invariant files read results hperm]
  · haveI : IsTotal (String × String) pathLe := ⟨pathLe_total⟩
    haveI : IsTrans (String × String) pathLe := ⟨fun _ _ _ => pathLe_trans⟩
    exact List.sorted_insertionSort pathLe results

/-- Witness for C2: the reads complete in the order `b.bin`, `a.txt`,
the reverse of the canonical order. -/
theorem C2_prompt_deterministic_witness :
    ([(("b.bin" : String), ("[Binary file]" : String)), ("a.txt", "hello")]).Perm
      (readResults ["a.txt", "b.bin"]
        (fun p => if p = "a.txt" then .ok "hello" else .unicodeDecodeError)) ∧
    (assemblePrompt
        (summaryOfResults [(("b.bin" : String), ("[Binary file]" : String)), ("a.txt", "hello")]) =
      assemblePrompt (summaryOfResults (readResults ["a.txt", "b.bin"]
        (fun p => if p = "a.txt" then .ok "hello" else .unicodeDecodeError))) ∧
    (sortByPath [(("b.bin" : String), ("[Binary file]" : String)), ("a.txt", "hello")]).Sorted
      pathLe) :=
  ⟨by decide, C2_prompt_deterministic ["a.txt", "b.bin"] _ _ (by decide)⟩

/-- Claim C5: when `GEMINI_API_KEY` is absent the generation client
returns `None` before building a client, no network call is attempted,
and `README.md` still holds its pre-run content when the run ends. -/
theorem C5_missing_credential (env : Env) (h : env.api_key = none) :
    (∀ prompt : String, call_geminiai prompt env.api_key env.gen = (none, false)) ∧
    (main env).networkCalled = false ∧
    (main env).fs.readme = env.fs0.readme := by
  rcases env with ⟨fs0, bf, git, read, key, gen, fw⟩
  subst h
  refine ⟨fun _ => rfl, ?_, ?_⟩ <;>
    by_cases hb : (backup_existing_readme fs0 bf).1 = false <;>
    rcases git with files | m | m <;>
    simp [main, hb, get_codebase_summary, call_geminiai, backup_readme_frame]

/-- Witness for C5 at a concrete environment. -/
theorem C5_missing_credential_witness :
    (Env.mk ⟨some "doc", none⟩ none (.ok ["a.txt"]) (fun _ => .ok "text") none
        (.success (some "generated")) false).api_key = none ∧
    ((∀ prompt : String, call_geminiai prompt
        (Env.mk ⟨some "doc", none⟩ none (.ok ["a.txt"]) (fun _ => .ok "text") none
          (.success (some "generated")) false).api_key
        (Env.mk ⟨some "doc", none⟩ none (.ok ["a.txt"]) (fun _ => .ok "text") none
          (.success (some "generated")) false).gen = (none, false)) ∧
      (main (Env.mk ⟨some "doc", none⟩ none (.ok ["a.txt"]) (fun _ => .ok "text") none
        (.success (some "generated")) false)).networkCalled = false ∧
      (main (Env.mk ⟨some "doc", none⟩ none (.ok ["a.txt"]) (fun _ => .ok "text") none
        (.success (some "generated")) false)).fs.readme = some "doc") :=
  ⟨rfl, C5_missing_credential
    (Env.mk ⟨some "doc", none⟩ none (.ok ["a.txt"]) (fun _ => .ok "text") none
      (.success (some "generated")) false) rfl⟩

/-- Claim C6: whenever the remote generation step fails — by raising, or
by yielding an absent or empty result — the final write step is never
invoked and `README.md` keeps its pre-run content. -/
theorem C6_generation_failure_preserves_readme (env : Env)
    (h : genFailed env.gen = true) :
    (main env).writeInvoked = false ∧ (main env).fs.readme = env.fs0.readme := by
  rcases env with ⟨fs0, bf, git, read, key, gen, fw⟩
  by_cases hb : (backup_existing_readme fs0 bf).1 = false
  · constructor <;> simp [main, hb, backup_readme_frame]
  · rcases gen with t | m
    · rcases t with _ | s
      · rcases key with _ | k <;>
          rcases git with files | m2 | m2 <;>
          constructor <;>
          simp [main, hb, get_codebase_summary, call_geminiai, backup_readme_frame]
      · have hs : s = "" := by simpa [genFailed] using h
        subst hs
        rcases key with _ | k <;>
          rcases git with files | m2 | m2 <;>
          constructor <;>
          simp [main, hb, get_codebase_summary, call_geminiai, backup_readme_frame]
    · rcases key with _ | k <;>
        rcases git with files | m2 | m2 <;>
        constructor <;>
        simp [main, hb, get_codebase_summary, call_geminiai, backup_readme_frame]

/-- Witness for C6: the remote call raises, with everything else healthy. -/
theorem C6_generation_failure_preserves_readme_witness :
    genFailed (Env.mk ⟨some "doc", none⟩ none (.ok ["a.txt"]) (fun _ => .ok "text")
        (some "key") (.raised "network unreachable") false).gen = true ∧
    ((main (Env.mk ⟨some "doc", none⟩ none (.ok ["a.txt"]) (fun _ => .ok "text")
        (some "key") (.raised "network unreachable") false)).writeInvoked = false ∧
      (main (Env.mk ⟨some "doc", none⟩ none (.ok ["a.txt"]) (fun _ => .ok "text")
        (some "key") (.raised "network unreachable") false)).fs.readme = some "doc") :=
  ⟨rfl, C6_generation_failure_preserves_readme
    (Env.mk ⟨some "doc", none⟩ none (.ok ["a.txt"]) (fun _ => .ok "text")
      (some "key") (.raised "network unreachable") false) rfl⟩

/-- Counterexample to claim C1 as stated: when `git ls-files` exits
non-zero, the enumerator returns the string
`"Error: Failed to list git files"` as an ordinary summary, `main` keeps
going, and the network call is attempted anyway — the run does not abort
before the network call. -/
theorem C1_counterexample :
    get_codebase_summary (.calledProcessError "exit status 128") (fun _ => .ok "") =
      .ok "Error: Failed to list git files" ∧
    (main (Env.mk ⟨none, none⟩ none (.calledProcessError "exit status 128")
        (fun _ => .ok "") (some "key") (.success (some "generated")) false)).networkCalled
      = true :=
  ⟨rfl, rfl⟩

/-- Claim C1 as amended: a non-zero git exit is caught and surfaced as
the fixed error string, without raising past the orchestrator — but the
run does not abort: with a credential present the network call is still
attempted, with the error string embedded in the prompt.  A git command
that cannot be invoked at all instead raises past the orchestrator, and
then no network call happens. -/
theorem C1_amended :
    (∀ (env : Env) (m k : String), env.git = .calledProcessError m →
      env.backupFailure = none → env.api_key = some k →
      get_codebase_summary env.git env.read = .ok "Error: Failed to list git files" ∧
      (main env).networkCalled = true) ∧
    (∀ (env : Env) (m : String), env.git = .invocationError m →
      env.backupFailure = none →
      (main env).uncaught = some m ∧ (main env).networkCalled = false ∧
      (main env).writeInvoked = false) := by
  constructor
  · intro env m k hgit hbf hkey
    rcases env with ⟨fs0, bf, git, read, key, gen, fw⟩
    cases hgit
    cases hbf
    cases hkey
    refine ⟨rfl, ?_⟩
    have hb : ¬ (backup_existing_readme fs0 none).1 = false := by
      simp [backup_none_succeeds]
    rcases gen with t | m2
    · rcases t with _ | s
      · simp [main, hb, get_codebase_summary, call_geminiai]
      · cases fw <;> by_cases hs : s = "" <;>
          simp [main, hb, hs, get_codebase_summary, call_geminiai]
    · simp [main, hb, get_codebase_summary, call_geminiai]
  · intro env m hgit hbf
    rcases env with ⟨fs0, bf, git, read, key, gen, fw⟩
    cases hgit
    cases hbf
    have hb : ¬ (backup_existing_readme fs0 none).1 = false := by
      simp [backup_none_succeeds]
    simp [main, hb, get_codebase_summary]

/-- Witness for C1 as amended: a non-zero exit with a key present, and an
invocation failure. -/
theorem C1_amended_witness :
    ((get_codebase_summary
        (Env.mk ⟨none, none⟩ none (.calledProcessError "exit status 128")
          (fun _ => .ok "") (some "key") (.success (some "generated")) false).git
        (Env.mk ⟨none, none⟩ none (.calledProcessError "exit status 128")
          (fun _ => .ok "") (some "key") (.success (some "generated")) false).read =
        .ok "Error: Failed to list git files") ∧
      (main (Env.mk ⟨none, none⟩ none (.calledProcessError "exit status 128")
        (fun _ => .ok "") (some "key") (.success (some "generated")) false)).networkCalled
        = true) ∧
    ((main (Env.mk ⟨none, none⟩ none (.invocationError "FileNotFoundError: git")
        (fun _ => .ok "") (some "key") (.success (some "generated")) false)).uncaught =
        some "FileNotFoundError: git" ∧
      (main (Env.mk ⟨none, none⟩ none (.invocationError "FileNotFoundError: git")
        (fun _ => .ok "") (some "key") (.success (some "generated")) false)).networkCalled
        = false ∧
      (main (Env.mk ⟨none, none⟩ none (.invocationError "FileNotFoundError: git")
        (fun _ => .ok "") (some "key") (.success (some "generated")) false)).writeInvoked
        = false) :=
  ⟨C1_amended.1
      (Env.mk ⟨none, none⟩ none (.calledProcessError "exit status 128")
        (fun _ => .ok "") (some "key") (.success (some "generated")) false)
      "exit status 128" "key" rfl rfl rfl,
    C1_amended.2
      (Env.mk ⟨none, none⟩ none (.invocationError "FileNotFoundError: git")
        (fun _ => .ok "") (some "key") (.success (some "generated")) false)
      "FileNotFoundError: git" rfl rfl⟩

/-- Counterexample to claim C3 as stated: the backup is made with a
text-mode read and write, so a pre-run `README.md` containing a CRLF
line ending yields a backup whose bytes differ — the backup step
succeeds, yet `README.md.bak` is not a byte-copy of the pre-run file. -/
theorem C3_counterexample :
    (backup_existing_readme ⟨some "a\r\nb", none⟩ none).1 = true ∧
    (backup_existing_readme ⟨some "a\r\nb", none⟩ none).2.bak = some "a\nb" ∧
    some ("a\nb" : String) ≠ some ("a\r\nb" : String) := by
  refine ⟨rfl, rfl, by decide⟩

/-- Claim C3 as amended: when `README.md` exists and the backup copy
completes, `README.md.bak` holds the pre-run content with
universal-newline translation applied (the copy is made in text mode);
in particular it is a byte-identical copy whenever the pre-run content
contains no carriage-return characters. -/
theorem C3_amended (st : FsState) (raw : String) (h : st.readme = some raw) :
    backup_existing_readme st none = (true, ⟨some raw, some (readText raw)⟩) ∧
    ('\r' ∉ raw.data → readText raw = raw) := by
  constructor
  · rcases st with ⟨r, b⟩
    subst h
    rfl
  · intro hcr
    unfold readText
    rw [translateNewlines_of_no_cr raw.data hcr]

/-- Witness for C3 as amended, on a carriage-return-free document. -/
theorem C3_amended_witness :
    (FsState.mk (some "# Title\nBody\n") none).readme = some "# Title\nBody\n" ∧
    (backup_existing_readme ⟨some "# Title\nBody\n", none⟩ none =
        (true, ⟨some "# Title\nBody\n", some (readText "# Title\nBody\n")⟩) ∧
      ('\r' ∉ ("# Title\nBody\n" : String).data →
        readText "# Title\nBody\n" = "# Title\nBody\n")) :=
  ⟨rfl, C3_amended ⟨some "# Title\nBody\n", none⟩ "# Title\nBody\n" rfl⟩

/-- Counterexample to claim C7 as stated: a backup copy that fails while
reading the source (for example a non-UTF-8 `README.md`) has already
truncated `README.md.bak`, so the aborted run does overwrite something:
the previous backup is destroyed. -/
theorem C7_counterexample :
    (backup_existing_readme ⟨some "current document", some "previous backup"⟩
        (some .readSrc)).1 = false ∧
    (main (Env.mk ⟨some "current document", some "previous backup"⟩ (some .readSrc)
        (.ok []) (fun _ => .ok "") (some "key") (.success (some "generated"))
        false)).fs.bak = some "" ∧
    some ("" : String) ≠ some ("previous backup" : String) := by
  refine ⟨rfl, rfl, by decide⟩

/-- Claim C7 as amended: when the backup copy cannot complete, the backup
step returns `False` and the run aborts at once — no file enumeration
(even a git failure never surfaces), no prompt assembly, no generation
call — and `README.md` is not overwritten; but a pre-existing
`README.md.bak` may already have been truncated, because the destination
is opened for writing before the source is read. -/
theorem C7_amended (env : Env)
    (h : (backup_existing_readme env.fs0 env.backupFailure).1 = false) :
    (main env).networkCalled = false ∧ (main env).writeInvoked = false ∧
    (main env).uncaught = none ∧ (main env).fs.readme = env.fs0.readme := by
  refine ⟨?_, ?_, ?_, ?_⟩ <;> simp [main, h, backup_readme_frame]

/-- Witness for C7 as amended: the backup destination cannot be opened,
while git would even have crashed had it been reached. -/
theorem C7_amended_witness :
    (backup_existing_readme
        (Env.mk ⟨some "current", some "old"⟩ (some .openDst)
          (.invocationError "FileNotFoundError: git") (fun _ => .ok "") (some "key")
          (.success (some "generated")) false).fs0
        (Env.mk ⟨some "current", some "old"⟩ (some .openDst)
          (.invocationError "FileNotFoundError: git") (fun _ => .ok "") (some "key")
          (.success (some "generated")) false).backupFailure).1 = false ∧
    ((main (Env.mk ⟨some "current", some "old"⟩ (some .openDst)
        (.invocationError "FileNotFoundError: git") (fun _ => .ok "") (some "key")
        (.success (some "generated")) false)).networkCalled = false ∧
      (main (Env.mk ⟨some "current", some "old"⟩ (some .openDst)
        (.invocationError "FileNotFoundError: git") (fun _ => .ok "") (some "key")
        (.success (some "generated")) false)).writeInvoked = false ∧
      (main (Env.mk ⟨some "current", some "old"⟩ (some .openDst)
        (.invocationError "FileNotFoundError: git") (fun _ => .ok "") (some "key")
        (.success (some "generated")) false)).uncaught = none ∧
      (main (Env.mk ⟨some "current", some "old"⟩ (some .openDst)
        (.invocationError "FileNotFoundError: git") (fun _ => .ok "") (some "key")
        (.success (some "generated")) false)).fs.readme = some "current") :=
  ⟨rfl, C7_amended
    (Env.mk ⟨some "current", some "old"⟩ (some .openDst)
      (.invocationError "FileNotFoundError: git") (fun _ => .ok "") (some "key")
      (.success (some "generated")) false) rfl⟩

end Readme
